import Mathlib

/- Verification of the LUNA codebase-encyclopedia summary generator
(src/python/summarizer_tool.py).  The script is embedded shallowly: filesystem
paths become lists of components, Python string slicing becomes char-list
operations, and every effect (directory creation, file reads, remote API
calls, file writes, console output) is recorded as an event in a trace.
External outcomes (file contents, API responses, write success) are supplied
by an explicit environment, so the orchestration logic itself is a pure
function from an environment and arguments to a trace and an exit code. -/

set_option maxRecDepth 100000

deriving instance DecidableEq for Except

namespace Summarizer

/-- A filesystem path as its list of components; an absolute path starts with
the root component, written as the single component string slash. -/
abbrev FsPath := List String

/-- Strip leading and trailing whitespace from a list of characters; embeds
the Python string strip method used on each line of the file list. -/
def stripChars (l : List Char) : List Char :=
  ((l.dropWhile Char.isWhitespace).reverse.dropWhile Char.isWhitespace).reverse

/-- Embed a Python path constructor call: split a path string on slashes,
dropping empty and dot components, and keep a leading root component. -/
def parsePath (s : String) : FsPath :=
  let comps := ((s.data.splitOn '/').map String.mk).filter
    (fun c => c != "" && c != ".")
  if s.data.head? = some '/' then "/" :: comps else comps

/-- Join path components with slashes (no leading root). -/
def joinSlash : List String → String
  | [] => ""
  | [c] => c
  | c :: rest => c ++ "/" ++ joinSlash rest

/-- Render a path the way Python str does for a pathlib path. -/
def pathStr : FsPath → String
  | "/" :: rest => "/" ++ joinSlash rest
  | p => joinSlash p

/-- Index of the last dot in a list of characters, if any. -/
def lastDot : List Char → Option Nat
  | [] => none
  | c :: rest =>
    match lastDot rest with
    | some i => some (i + 1)
    | none => if c = '.' then some 0 else none

/-- The extension of a final path component, following the pathlib rule: the
part from the last dot on, provided that dot is neither the first nor the
last character of the name. -/
def nameSuffix (s : String) : String :=
  match lastDot s.data with
  | some i =>
    if 0 < i ∧ i + 1 < s.data.length then String.mk (s.data.drop i) else ""
  | none => ""

/-- The final path component without its extension (pathlib stem). -/
def nameStem (s : String) : String :=
  match lastDot s.data with
  | some i =>
    if 0 < i ∧ i + 1 < s.data.length then String.mk (s.data.take i) else s
  | none => s

/-- Replace the extension of the last component of a path (pathlib
with_suffix): the new last component is the stem followed by the suffix. -/
def with_suffix (p : FsPath) (suffix : String) : FsPath :=
  p.dropLast ++ [nameStem (p.getLastD "") ++ suffix]

/-- The message of the ValueError raised by pathlib relative_to when the
first path does not lie under the second. -/
def relErrMsg (p w : FsPath) : String :=
  "\x27" ++ pathStr p ++ "\x27 is not in the subpath of \x27" ++ pathStr w
    ++ "\x27"

/-- Embed pathlib relative_to: succeeds with the remaining components when
the second path is a component prefix of the first, raises otherwise. -/
def relative_to (p w : FsPath) : Except String FsPath :=
  if w.isPrefixOf p then .ok (p.drop w.length) else .error (relErrMsg p w)

/-- Python slicing from the start: the first n characters of a string. -/
def pySlice (s : String) (n : Nat) : String := String.mk (s.data.take n)

/-- The truncation marker appended to over-long source text in the prompt. -/
def truncMarker : String := "...[truncated]"

/-- Prompt template text before the first interpolation of the path. -/
def promptPartA : String :=
  "Analyze this source file and generate a structured Markdown summary optimized for AI consumption.\n\n**File**: `"

/-- Prompt template text between the path and the interpolated stem. -/
def promptPartB : String :=
  "`\n\n**Your task**: Create a clear, structured summary that will help an AI assistant quickly understand this file\x27s purpose, structure, and dependencies.\n\n**Required sections** (use this exact format):\n\n# "

/-- Prompt template text between the stem and the second path occurrence. -/
def promptPartC : String :=
  "\n\n## Purpose\nOne concise paragraph explaining what this file does and why it exists.\n\n## Key Components\nList the main classes, functions, or exports with brief descriptions:\n- `ComponentName`: What it does\n- `functionName()`: What it does\n\n## Dependencies\n### Internal (from this codebase)\n- `path/to/file.py` - What you use from it\n- `another/file.ts` - What you use from it\n\n### External (libraries/packages)\n- `library-name` - What features you use\n\n## Public API\nWhat this file exposes for other files to use:\n- `export function doThing()`: Description\n- `class MyClass`: Description\n\n## Code Links\nDirect references to key definitions (use format `[symbol_name](code:"

/-- Prompt template text between the second and third path occurrences. -/
def promptPartD : String :=
  "#symbol=symbol_name)`):\n- [main_function](code:"

/-- Prompt template text between the third and fourth path occurrences. -/
def promptPartE : String :=
  "#symbol=main_function)\n- [ClassName](code:"

/-- Prompt template text between the fourth path occurrence and the code
fence language tag. -/
def promptPartF : String :=
  "#symbol=ClassName)\n\n## Implementation Notes\nAny important patterns, algorithms, or gotchas an AI should know about.\n\n---\n\n**Source code**:\n```"

/-- Prompt template text after the embedded source code. -/
def promptPartG : String :=
  "\n```\n\nGenerate the summary now. Be precise and focused on information that would help an AI understand the codebase architecture."

/-- The stem interpolated into the heading of the prompt: the stem of the
final component of the relative path string. -/
def pathStrStem (s : String) : String := nameStem ((parsePath s).getLastD "")

/-- Embed build_analysis_prompt: the f-string template with the relative
path, its stem, the code fence language derived from the extension, and the
source text cut at 8000 characters with the marker appended when cut. -/
def build_analysis_prompt (rel_path file_ext content : String) : String :=
  promptPartA ++ rel_path ++ promptPartB ++ pathStrStem rel_path
    ++ promptPartC ++ rel_path ++ promptPartD ++ rel_path ++ promptPartE
    ++ rel_path ++ promptPartF
    ++ (if file_ext = "" then "txt" else file_ext.drop 1) ++ "\n"
    ++ pySlice content 8000 ++ "  "
    ++ (if content.length > 8000 then truncMarker else "")
    ++ promptPartG

/-- Helper for a stack-friendly substring scan: accumulating variant. -/
def occursInAux (needle : List Char) : List Char → Bool → Bool
  | _, true => true
  | [], acc => acc || needle.isPrefixOf []
  | c :: t, acc => occursInAux needle t (acc || needle.isPrefixOf (c :: t))

/-- Whether one character sequence occurs inside another. -/
def occursIn (needle hay : List Char) : Bool := occursInAux needle hay false

/-- An observable effect of the script, recorded in order of occurrence. -/
inductive Event where
  | mkdirP (p : FsPath)
  | readList
  | readF (path : String)
  | apiCall (prompt : String)
  | writeF (p : FsPath) (text : String)
  | out (line : String)
  | err (line : String)
deriving DecidableEq

/-- The outcomes the outside world supplies to the script: the environment
variable, the text of the file-list file, the content or failure of each
source file read, the response or failure of each API call, the success or
failure of each file write, and the timestamp. -/
structure Env where
  envApiKey : Option String
  fileListText : String
  readFile : String → Except String String
  apiResponse : String → Except String String
  writeResult : FsPath → Option String
  now : String

/-- The parsed command-line arguments. -/
structure Args where
  workspace : String
  files : String
  api_key : Option String

/-- The error line printed when one file fails to process. -/
def failMsg (file_path msg : String) : String :=
  "ERROR: Failed to process " ++ file_path ++ ": " ++ msg

/-- The progress line printed for each file. -/
def processingMsg (idx total : Nat) (rel : FsPath) : String :=
  "Processing " ++ toString idx ++ "/" ++ toString total ++ ": " ++ pathStr rel

/-- The fatal error line when no API key can be resolved. -/
def apiKeyErrMsg : String :=
  "ERROR: API key required. Set ANTHROPIC_API_KEY or use --api-key"

/-- The fatal error line when the file list has no entries. -/
def noFilesErrMsg : String := "ERROR: No files to process"

/-- The sidecar metadata serialized as JSON with two-space indentation. -/
def metadataJson (source_file summary_file generated_at : String) : String :=
  "\x7b\n  \"source_file\": \"" ++ source_file ++ "\",\n  \"summary_file\": \""
    ++ summary_file ++ "\",\n  \"generated_at\": \"" ++ generated_at
    ++ "\"\n\x7d"

/-- The extension of a file path string (pathlib suffix of the whole path). -/
def fileExtOf (file_path : String) : String :=
  nameSuffix ((parsePath file_path).getLastD "")

/-- Embed generate_single_summary: read the file, recompute the relative
path, build the prompt from the path string, the extension and the content,
and call the remote API; return the trace of attempted effects together with
the response text or the exception message. -/
def generate_single_summary (env : Env) (workspace_path : FsPath)
    (file_path : String) : List Event × Except String String :=
  match env.readFile file_path with
  | .error m => ([.readF file_path], .error m)
  | .ok content =>
    match relative_to (parsePath file_path) workspace_path with
    | .error m => ([.readF file_path], .error m)
    | .ok rel_path =>
      let prompt := build_analysis_prompt (pathStr rel_path)
        (fileExtOf file_path) content
      match env.apiResponse prompt with
      | .error m => ([.readF file_path, .apiCall prompt], .error m)
      | .ok text => ([.readF file_path, .apiCall prompt], .ok text)

/-- Embed save_summary: compute the summary path under the docs directory,
create its parent directories, write the summary, then write the JSON
sidecar next to it; return the trace and the first write error, if any. -/
def save_summary (env : Env) (docs_path rel_path : FsPath) (summary : String) :
    List Event × Option String :=
  let summary_path := docs_path ++ with_suffix rel_path ".md"
  match env.writeResult summary_path with
  | some m => ([.mkdirP summary_path.dropLast], some m)
  | none =>
    let metadata_path := with_suffix summary_path ".json"
    let meta := metadataJson (pathStr rel_path)
      (pathStr (with_suffix rel_path ".md")) env.now
    match env.writeResult metadata_path with
    | some m =>
      ([.mkdirP summary_path.dropLast, .writeF summary_path summary], some m)
    | none =>
      ([.mkdirP summary_path.dropLast, .writeF summary_path summary,
        .writeF metadata_path meta], none)

/-- Embed the body of the per-file loop: compute the relative path, print
the progress line, generate and save the summary; any failure is caught here
and logged to the error stream with the file path and the message. -/
def processOne (env : Env) (workspace_path docs_path : FsPath)
    (idx total : Nat) (file_path : String) : List Event :=
  match relative_to (parsePath file_path) workspace_path with
  | .error m => [.err (failMsg file_path m)]
  | .ok rel_path =>
    Event.out (processingMsg idx total rel_path) ::
      match generate_single_summary env workspace_path file_path with
      | (evs, .error m) => evs ++ [.err (failMsg file_path m)]
      | (evs, .ok summary) =>
        match save_summary env docs_path rel_path summary with
        | (sevs, some m) => evs ++ sevs ++ [.err (failMsg file_path m)]
        | (sevs, none) => evs ++ sevs

/-- The per-file loop with the one-based counter of the enumerate call. -/
def goFiles (env : Env) (workspace_path docs_path : FsPath) (total idx : Nat) :
    List String → List Event
  | [] => []
  | f :: rest =>
    processOne env workspace_path docs_path idx total f
      ++ goFiles env workspace_path docs_path total (idx + 1) rest

/-- Embed generate_summaries: create the docs directory, then process every
file in order with a one-based counter over the total count. -/
def generate_summaries (env : Env) (workspace_path docs_path : FsPath)
    (file_paths : List String) : List Event :=
  Event.mkdirP docs_path
    :: goFiles env workspace_path docs_path file_paths.length 1 file_paths

/-- Python truthiness of an optional string: present and non-empty. -/
def truthy : Option String → Bool
  | none => false
  | some s => s != ""

/-- The API key resolution: the argument if truthy, else the environment. -/
def resolveApiKey (args : Args) (env : Env) : Option String :=
  if truthy args.api_key then args.api_key else env.envApiKey

/-- Embed the file-list parse: split the text into lines, strip each line,
and keep the non-blank ones. -/
def parsedFileList (text : String) : List String :=
  (((text.data.splitOn '\n').map (fun l => String.mk (stripChars l))).filter
    (fun l => l != ""))

/-- The docs output directory for a workspace root. -/
def docsPathOf (workspace_path : FsPath) : FsPath :=
  workspace_path ++ ["docs", "codebase"]

/-- The completion line printed after the batch (its leading characters are
the exact bytes present in the source file). -/
def doneMsg (n : Nat) : String :=
  "\n‚úÖ Successfully generated " ++ toString n ++ " summaries"

/-- The output-location line printed after the batch. -/
def locationMsg (docs_path : FsPath) : String :=
  "üìÅ Output location: " ++ pathStr docs_path

/-- Embed main: resolve the API key or exit 1; read and parse the file list
or exit 1 when it is empty; otherwise run the batch, print the two closing
lines, and finish with exit status 0. -/
def main_run (env : Env) (args : Args) : List Event × Nat :=
  if !(truthy (resolveApiKey args env)) then ([.err apiKeyErrMsg], 1)
  else
    let files := parsedFileList env.fileListText
    if files.isEmpty then ([.readList, .err noFilesErrMsg], 1)
    else
      let workspace_path := parsePath args.workspace
      let docs_path := docsPathOf workspace_path
      (Event.readList
          :: generate_summaries env workspace_path docs_path files
          ++ [.out (doneMsg files.length), .out (locationMsg docs_path)],
        0)

/-- The API prompts sent, in order, in a trace. -/
def apiPromptsOf (t : List Event) : List String :=
  t.filterMap fun e => match e with | .apiCall p => some p | _ => none

/-- The source files whose read was attempted, in order, in a trace. -/
def readsOf (t : List Event) : List String :=
  t.filterMap fun e => match e with | .readF p => some p | _ => none

/-- The paths written, in order, in a trace. -/
def writesOf (t : List Event) : List FsPath :=
  t.filterMap fun e => match e with | .writeF p _ => some p | _ => none

/-- The prompt a file would lead to, when both the relative-path computation
and the file read succeed; none when the summary step cannot reach the API
call. -/
def promptAttempt (env : Env) (workspace_path : FsPath) (file_path : String) :
    Option String :=
  match relative_to (parsePath file_path) workspace_path with
  | .error _ => none
  | .ok rel_path =>
    match env.readFile file_path with
    | .error _ => none
    | .ok content =>
      some (build_analysis_prompt (pathStr rel_path)
        (fileExtOf file_path) content)

/-- The exception message the per-file handler catches for a file, if its
processing fails at any step, mirroring the order of the steps. -/
def processErr (env : Env) (workspace_path docs_path : FsPath)
    (file_path : String) : Option String :=
  match relative_to (parsePath file_path) workspace_path with
  | .error m => some m
  | .ok rel_path =>
    match env.readFile file_path with
    | .error m => some m
    | .ok content =>
      match env.apiResponse (build_analysis_prompt (pathStr rel_path)
          (fileExtOf file_path) content) with
      | .error m => some m
      | .ok _ =>
        match env.writeResult (docs_path ++ with_suffix rel_path ".md") with
        | some m => some m
        | none =>
          match env.writeResult
              (with_suffix (docs_path ++ with_suffix rel_path ".md") ".json") with
          | some m => some m
          | none => none

/-- The step at which processing of one file fails, if it fails. -/
inductive FailStage where
  | relPath
  | readStep
  | apiStep
  | writeMd
  | writeJson
deriving DecidableEq

/-- Classify where the processing of a file fails, if anywhere. -/
def failStage (env : Env) (workspace_path docs_path : FsPath)
    (file_path : String) : Option FailStage :=
  match relative_to (parsePath file_path) workspace_path with
  | .error _ => some .relPath
  | .ok rel_path =>
    match env.readFile file_path with
    | .error _ => some .readStep
    | .ok content =>
      match env.apiResponse (build_analysis_prompt (pathStr rel_path)
          (fileExtOf file_path) content) with
      | .error _ => some .apiStep
      | .ok _ =>
        match env.writeResult (docs_path ++ with_suffix rel_path ".md") with
        | some _ => some .writeMd
        | none =>
          match env.writeResult
              (with_suffix (docs_path ++ with_suffix rel_path ".md") ".json") with
          | some _ => some .writeJson
          | none => none

/-- A run whose two listed files all resolve, read, and save successfully. -/
def envC1 : Env where
  envApiKey := none
  fileListText := "/ws/src/a.py\n/ws/src/b.ts\n"
  readFile := fun _ => .ok "x = 1\n"
  apiResponse := fun _ => .ok "# summary\n"
  writeResult := fun _ => none
  now := "2026-10-12T00:00:00"

/-- Arguments naming the workspace root and passing the key directly. -/
def argsC1 : Args where
  workspace := "/ws"
  files := "list.txt"
  api_key := some "key"

/-- A run where exactly one listed file is missing on disk. -/
def envC2 : Env where
  envApiKey := none
  fileListText := ""
  readFile := fun fp =>
    if fp = "/ws/b.py" then .error "No such file or directory"
    else .ok "x = 1\n"
  apiResponse := fun _ => .ok "# summary\n"
  writeResult := fun _ => none
  now := "2026-10-12T00:00:00"

/-- A run where every write succeeds. -/
def envC3 : Env where
  envApiKey := none
  fileListText := ""
  readFile := fun _ => .ok "x = 1\n"
  apiResponse := fun _ => .ok "# summary\n"
  writeResult := fun _ => none
  now := "2026-10-12T00:00:00"

/-- A run whose file list holds only blank lines. -/
def envC5 : Env where
  envApiKey := some "key"
  fileListText := "  \n\n \n"
  readFile := fun _ => .error "unused"
  apiResponse := fun _ => .error "unused"
  writeResult := fun _ => some "unused"
  now := "2026-10-12T00:00:00"

/-- Arguments for the blank-file-list run. -/
def argsC5 : Args where
  workspace := "/ws"
  files := "list.txt"
  api_key := none

/-- A run with no key in the environment variable. -/
def envC6 : Env where
  envApiKey := none
  fileListText := "/ws/a.py\n"
  readFile := fun _ => .ok "x = 1\n"
  apiResponse := fun _ => .ok "# summary\n"
  writeResult := fun _ => none
  now := "2026-10-12T00:00:00"

/-- Arguments passing an empty, hence falsy, key. -/
def argsC6 : Args where
  workspace := "/ws"
  files := "list.txt"
  api_key := some ""

/-- The summary path of the single file of the metadata-failure run. -/
def mdPathC7 : FsPath := ["/", "ws", "docs", "codebase", "a.md"]

/-- A run where the summary write succeeds and the sidecar write fails. -/
def envC7 : Env where
  envApiKey := none
  fileListText := ""
  readFile := fun _ => .ok "print(1)\n"
  apiResponse := fun _ => .ok "# a\n"
  writeResult := fun p => if p = mdPathC7 then none else some "disk full"
  now := "2026-10-12T00:00:00"

/-- A run whose single file is missing on disk and all writes succeed. -/
def envC7b : Env where
  envApiKey := none
  fileListText := ""
  readFile := fun _ => .error "No such file or directory"
  apiResponse := fun _ => .ok "# a\n"
  writeResult := fun _ => none
  now := "2026-10-12T00:00:00"

/-- A run with two listed files that are both missing on disk. -/
def envC8 : Env where
  envApiKey := some "key"
  fileListText := "/ws/a.py\n/ws/b.py\n"
  readFile := fun _ => .error "No such file or directory"
  apiResponse := fun _ => .error "unused"
  writeResult := fun _ => some "unused"
  now := "2026-10-12T00:00:00"

/-- Arguments for the all-files-failing runs. -/
def argsC8 : Args where
  workspace := "/ws"
  files := "list.txt"
  api_key := none

/-- A run used around a file that lies outside the workspace root. -/
def envC9 : Env where
  envApiKey := none
  fileListText := ""
  readFile := fun _ => .ok "x = 1\n"
  apiResponse := fun _ => .ok "# summary\n"
  writeResult := fun _ => none
  now := "2026-10-12T00:00:00"

/-- A run with two listed files whose reads both fail. -/
def envC10 : Env where
  envApiKey := some "key"
  fileListText := "/ws/a.py\n/ws/b.py\n"
  readFile := fun _ => .error "No such file or directory"
  apiResponse := fun _ => .error "unused"
  writeResult := fun _ => some "unused"
  now := "2026-10-12T00:00:00"

/-- Arguments for the completion-message run. -/
def argsC10 : Args where
  workspace := "/ws"
  files := "list.txt"
  api_key := none

theorem occursInAux_of_true (needle l) : occursInAux needle l true = true := by
  cases l <;> simp [occursInAux]

theorem occursInAux_acc (needle l acc) :
    occursInAux needle l acc = (acc || occursInAux needle l false) := by
  cases acc
  · simp
  · simp [occursInAux_of_true]

theorem occursIn_cons (needle : List Char) (c : Char) (t : List Char) :
    occursIn needle (c :: t)
      = (needle.isPrefixOf (c :: t) || occursIn needle t) := by
  have h1 : occursIn needle (c :: t)
      = occursInAux needle t (false || needle.isPrefixOf (c :: t)) := rfl
  rw [h1, Bool.false_or, occursInAux_acc]
  rfl

theorem occursIn_spec (needle hay : List Char) :
    occursIn needle hay = true ↔ needle <:+: hay := by
  induction hay with
  | nil => simp [occursIn, occursInAux]
  | cons c t ih => rw [occursIn_cons]; simp [List.infix_cons_iff, ih]

theorem str_append_empty (s : String) : s ++ "" = s :=
  String.ext (by simp)

theorem pySlice_of_le (s : String) (n : Nat) (h : s.length ≤ n) :
    pySlice s n = s := by
  cases s with
  | mk l =>
    apply String.ext
    simpa [pySlice] using List.take_of_length_le (by simpa using h)

theorem apiPromptsOf_append (a b : List Event) :
    apiPromptsOf (a ++ b) = apiPromptsOf a ++ apiPromptsOf b := by
  simp [apiPromptsOf]

theorem readsOf_append (a b : List Event) :
    readsOf (a ++ b) = readsOf a ++ readsOf b := by
  simp [readsOf]

theorem writesOf_append (a b : List Event) :
    writesOf (a ++ b) = writesOf a ++ writesOf b := by
  simp [writesOf]

theorem goFiles_append (env : Env) (ws ds : FsPath) (total : Nat)
    (l1 l2 : List String) (idx : Nat) :
    goFiles env ws ds total idx (l1 ++ l2)
      = goFiles env ws ds total idx l1
        ++ goFiles env ws ds total (idx + l1.length) l2 := by
  induction l1 generalizing idx with
  | nil => simp [goFiles]
  | cons f rest ih =>
    have h : idx + 1 + rest.length = idx + (rest.length + 1) := by omega
    calc goFiles env ws ds total idx ((f :: rest) ++ l2)
        = processOne env ws ds idx total f
          ++ goFiles env ws ds total (idx + 1) (rest ++ l2) := rfl
      _ = processOne env ws ds idx total f
          ++ (goFiles env ws ds total (idx + 1) rest
            ++ goFiles env ws ds total (idx + 1 + rest.length) l2) := by
          rw [ih]
      _ = (processOne env ws ds idx total f
            ++ goFiles env ws ds total (idx + 1) rest)
          ++ goFiles env ws ds total (idx + (rest.length + 1)) l2 := by
          rw [h, List.append_assoc]
      _ = goFiles env ws ds total idx (f :: rest)
          ++ goFiles env ws ds total (idx + (f :: rest).length) l2 := rfl

theorem apiPromptsOf_processOne (env : Env) (ws ds : FsPath)
    (idx total : Nat) (fp : String) :
    apiPromptsOf (processOne env ws ds idx total fp)
      = (promptAttempt env ws fp).toList := by
  unfold processOne generate_single_summary save_summary promptAttempt
  cases hrel : relative_to (parsePath fp) ws with
  | error m => simp [apiPromptsOf]
  | ok rel =>
    cases hread : env.readFile fp with
    | error m => simp [apiPromptsOf]
    | ok content =>
      cases hapi : env.apiResponse (build_analysis_prompt (pathStr rel)
          (fileExtOf fp) content) with
      | error m => simp [hapi, apiPromptsOf]
      | ok text =>
        cases hw1 : env.writeResult (ds ++ with_suffix rel ".md") with
        | some m => simp [hapi, hw1, apiPromptsOf]
        | none =>
          cases hw2 : env.writeResult
              (with_suffix (ds ++ with_suffix rel ".md") ".json") with
          | some m => simp [hapi, hw1, hw2, apiPromptsOf]
          | none => simp [hapi, hw1, hw2, apiPromptsOf]

theorem readsOf_processOne (env : Env) (ws ds : FsPath) (idx total : Nat)
    (fp : String) :
    readsOf (processOne env ws ds idx total fp)
      = if ws.isPrefixOf (parsePath fp) then [fp] else [] := by
  unfold processOne generate_single_summary save_summary
  cases hpre : ws.isPrefixOf (parsePath fp) with
  | false => simp [relative_to, hpre, readsOf]
  | true =>
    simp only [relative_to, hpre, if_true]
    cases hread : env.readFile fp with
    | error m => simp [readsOf]
    | ok content =>
      cases hapi : env.apiResponse (build_analysis_prompt
          (pathStr ((parsePath fp).drop ws.length)) (fileExtOf fp) content) with
      | error m => simp [hapi, readsOf]
      | ok text =>
        cases hw1 : env.writeResult
            (ds ++ with_suffix ((parsePath fp).drop ws.length) ".md") with
        | some m => simp [hapi, hw1, readsOf]
        | none =>
          cases hw2 : env.writeResult (with_suffix
              (ds ++ with_suffix ((parsePath fp).drop ws.length) ".md")
              ".json") with
          | some m => simp [hapi, hw1, hw2, readsOf]
          | none => simp [hapi, hw1, hw2, readsOf]

theorem err_mem_processOne (env : Env) (ws ds : FsPath) (idx total : Nat)
    (fp m : String) (h : processErr env ws ds fp = some m) :
    Event.err (failMsg fp m) ∈ processOne env ws ds idx total fp := by
  unfold processOne generate_single_summary save_summary
  unfold processErr at h
  cases hrel : relative_to (parsePath fp) ws with
  | error m0 => simp only [hrel] at h ⊢; simp at h; simp [h]
  | ok rel =>
    simp only [hrel] at h ⊢
    cases hread : env.readFile fp with
    | error m0 => simp only [hread] at h ⊢; simp at h; simp [h]
    | ok content =>
      simp only [hread] at h ⊢
      cases hapi : env.apiResponse (build_analysis_prompt (pathStr rel)
          (fileExtOf fp) content) with
      | error m0 => simp only [hapi] at h ⊢; simp at h; simp [h]
      | ok text =>
        simp only [hapi] at h ⊢
        cases hw1 : env.writeResult (ds ++ with_suffix rel ".md") with
        | some m0 => simp only [hw1] at h ⊢; simp at h; simp [h]
        | none =>
          simp only [hw1] at h ⊢
          cases hw2 : env.writeResult
              (with_suffix (ds ++ with_suffix rel ".md") ".json") with
          | some m0 => simp only [hw2] at h ⊢; simp at h; simp [h]
          | none => simp only [hw2] at h ⊢; simp at h

theorem apiPromptsOf_goFiles (env : Env) (ws ds : FsPath) (total : Nat)
    (files : List String) (idx : Nat) :
    apiPromptsOf (goFiles env ws ds total idx files)
      = files.filterMap (promptAttempt env ws) := by
  induction files generalizing idx with
  | nil => simp [goFiles, apiPromptsOf]
  | cons f rest ih =>
    rw [goFiles, apiPromptsOf_append, apiPromptsOf_processOne, ih,
      List.filterMap_cons]
    cases promptAttempt env ws f <;> simp

theorem readsOf_goFiles (env : Env) (ws ds : FsPath) (total : Nat)
    (files : List String) (idx : Nat) :
    readsOf (goFiles env ws ds total idx files)
      = files.filterMap
        (fun fp => if ws.isPrefixOf (parsePath fp) then some fp else none) := by
  induction files generalizing idx with
  | nil => simp [goFiles, readsOf]
  | cons f rest ih =>
    rw [goFiles, readsOf_append, readsOf_processOne, ih, List.filterMap_cons]
    cases hpre : ws.isPrefixOf (parsePath f) <;> simp [hpre]

theorem filterMap_eq_map_getD {α β : Type} (f : α → Option β) (d : β) :
    ∀ l : List α, (∀ x ∈ l, (f x).isSome = true) →
      l.filterMap f = l.map (fun x => (f x).getD d)
  | [], _ => rfl
  | x :: l, h => by
    have hx := h x (by simp)
    cases hfx : f x with
    | none => rw [hfx] at hx; simp at hx
    | some b =>
      simp only [List.filterMap_cons, List.map_cons, hfx, Option.getD_some]
      rw [filterMap_eq_map_getD f d l (fun y hy => h y (by simp [hy]))]

theorem filterMap_guard_eq_self {α : Type} (p : α → Bool) :
    ∀ l : List α, (∀ x ∈ l, p x = true) →
      l.filterMap (fun x => if p x then some x else none) = l
  | [], _ => rfl
  | x :: l, h => by
    have hx := h x (by simp)
    simp only [List.filterMap_cons, hx, if_true]
    rw [filterMap_guard_eq_self p l (fun y hy => h y (by simp [hy]))]

theorem promptAttempt_isSome_pre (env : Env) (ws : FsPath) (fp : String)
    (h : (promptAttempt env ws fp).isSome = true) :
    ws.isPrefixOf (parsePath fp) = true := by
  unfold promptAttempt at h
  cases hpre : ws.isPrefixOf (parsePath fp) with
  | true => rfl
  | false => rw [relative_to, hpre] at h; simp at h

theorem apiPromptsOf_readList_cons (t : List Event) :
    apiPromptsOf (Event.readList :: t) = apiPromptsOf t := rfl

theorem apiPromptsOf_mkdir_cons (p : FsPath) (t : List Event) :
    apiPromptsOf (Event.mkdirP p :: t) = apiPromptsOf t := rfl

theorem apiPromptsOf_two_outs (a b : String) :
    apiPromptsOf [Event.out a, Event.out b] = [] := rfl

theorem readsOf_readList_cons (t : List Event) :
    readsOf (Event.readList :: t) = readsOf t := rfl

theorem readsOf_mkdir_cons (p : FsPath) (t : List Event) :
    readsOf (Event.mkdirP p :: t) = readsOf t := rfl

theorem readsOf_two_outs (a b : String) :
    readsOf [Event.out a, Event.out b] = [] := rfl

/-- Claim C1: with a resolvable API key, the orchestrator attempts the read
of every listed file once, in list order, and when every listed file can be
relativized and read, it sends exactly one API prompt per listed file, in
list order. -/
theorem api_called_once_per_file_in_order (env : Env) (args : Args)
    (hkey : truthy (resolveApiKey args env) = true)
    (hall : ∀ fp ∈ parsedFileList env.fileListText,
      (promptAttempt env (parsePath args.workspace) fp).isSome = true) :
    apiPromptsOf (main_run env args).1
      = (parsedFileList env.fileListText).map
        (fun fp => (promptAttempt env (parsePath args.workspace) fp).getD "")
    ∧ readsOf (main_run env args).1 = parsedFileList env.fileListText := by
  unfold main_run
  rw [hkey]
  simp only [Bool.not_true, Bool.false_eq_true, if_false]
  cases hemp : (parsedFileList env.fileListText).isEmpty with
  | true =>
    have hnil : parsedFileList env.fileListText = [] :=
      List.isEmpty_iff.mp hemp
    simp [hnil, apiPromptsOf, readsOf]
  | false =>
    simp only [hemp, Bool.false_eq_true, if_false]
    unfold generate_summaries
    constructor
    · rw [apiPromptsOf_append, apiPromptsOf_readList_cons,
        apiPromptsOf_mkdir_cons, apiPromptsOf_goFiles,
        apiPromptsOf_two_outs, List.append_nil,
        filterMap_eq_map_getD _ "" _ hall]
    · rw [readsOf_append, readsOf_readList_cons, readsOf_mkdir_cons,
        readsOf_goFiles, readsOf_two_outs, List.append_nil,
        filterMap_guard_eq_self _ _
          (fun fp hfp => promptAttempt_isSome_pre env _ fp (hall fp hfp))]

/-- Claim C1 witness: a concrete two-file run with a valid key. -/
theorem api_called_once_per_file_in_order_witness :
    apiPromptsOf (main_run envC1 argsC1).1
      = (parsedFileList envC1.fileListText).map
        (fun fp => (promptAttempt envC1 (parsePath argsC1.workspace) fp).getD "")
    ∧ readsOf (main_run envC1 argsC1).1 = parsedFileList envC1.fileListText :=
  api_called_once_per_file_in_order envC1 argsC1 (by decide) (by decide)

/-- Claim C2: when processing of one listed file raises at any step, an error
line holding the file path and the exception message is emitted to the error
stream, and the batch still runs the per-file step for every other file: the
trace decomposes into the untouched traces of the files before and after the
failing one. -/
theorem single_failure_logged_and_batch_continues (env : Env) (ws ds : FsPath)
    (l1 l2 : List String) (fp m : String)
    (h : processErr env ws ds fp = some m) :
    Event.err (failMsg fp m) ∈ generate_summaries env ws ds (l1 ++ fp :: l2)
    ∧ generate_summaries env ws ds (l1 ++ fp :: l2)
      = Event.mkdirP ds
        :: (goFiles env ws ds (l1 ++ fp :: l2).length 1 l1
          ++ processOne env ws ds (l1.length + 1) (l1 ++ fp :: l2).length fp
          ++ goFiles env ws ds (l1 ++ fp :: l2).length (l1.length + 2) l2) := by
  have e1 : 1 + l1.length = l1.length + 1 := by omega
  have hdec : generate_summaries env ws ds (l1 ++ fp :: l2)
      = Event.mkdirP ds
        :: (goFiles env ws ds (l1 ++ fp :: l2).length 1 l1
          ++ processOne env ws ds (l1.length + 1) (l1 ++ fp :: l2).length fp
          ++ goFiles env ws ds (l1 ++ fp :: l2).length (l1.length + 2) l2) := by
    unfold generate_summaries
    rw [goFiles_append, e1]
    rw [show goFiles env ws ds (l1 ++ fp :: l2).length (l1.length + 1)
          (fp :: l2)
        = processOne env ws ds (l1.length + 1) (l1 ++ fp :: l2).length fp
          ++ goFiles env ws ds (l1 ++ fp :: l2).length (l1.length + 1 + 1) l2
      from rfl]
    rw [show l1.length + 1 + 1 = l1.length + 2 from by omega,
      List.append_assoc]
  refine ⟨?_, hdec⟩
  rw [hdec]
  exact List.mem_cons_of_mem _
    (List.mem_append_left _
      (List.mem_append_right _
        (err_mem_processOne env ws ds (l1.length + 1)
          (l1 ++ fp :: l2).length fp m h)))

/-- Claim C2 witness: a three-file batch whose middle file is missing. -/
theorem single_failure_logged_witness :
    Event.err (failMsg "/ws/b.py" "No such file or directory")
      ∈ generate_summaries envC2 ["/", "ws"] ["/", "ws", "docs", "codebase"]
        (["/ws/a.py"] ++ "/ws/b.py" :: ["/ws/c.py"])
    ∧ generate_summaries envC2 ["/", "ws"] ["/", "ws", "docs", "codebase"]
        (["/ws/a.py"] ++ "/ws/b.py" :: ["/ws/c.py"])
      = Event.mkdirP ["/", "ws", "docs", "codebase"]
        :: (goFiles envC2 ["/", "ws"] ["/", "ws", "docs", "codebase"]
            (["/ws/a.py"] ++ "/ws/b.py" :: ["/ws/c.py"]).length 1 ["/ws/a.py"]
          ++ processOne envC2 ["/", "ws"] ["/", "ws", "docs", "codebase"]
            (["/ws/a.py"] : List String).length.succ
            (["/ws/a.py"] ++ "/ws/b.py" :: ["/ws/c.py"]).length "/ws/b.py"
          ++ goFiles envC2 ["/", "ws"] ["/", "ws", "docs", "codebase"]
            (["/ws/a.py"] ++ "/ws/b.py" :: ["/ws/c.py"]).length
            ((["/ws/a.py"] : List String).length + 2) ["/ws/c.py"]) :=
  single_failure_logged_and_batch_continues envC2 ["/", "ws"]
    ["/", "ws", "docs", "codebase"] ["/ws/a.py"] ["/ws/c.py"] "/ws/b.py"
    "No such file or directory" (by decide)

/-- Claim C3: the summary of a file at relative path F is written to
W/docs/codebase/F with its extension replaced by .md, the metadata sidecar
next to it with .json instead, and the parent directory of the summary file
is created beforehand. -/
theorem summary_and_sidecar_paths (env : Env) (ws rel_path : FsPath)
    (s : String)
    (h1 : env.writeResult (docsPathOf ws ++ with_suffix rel_path ".md") = none)
    (h2 : env.writeResult
      (with_suffix (docsPathOf ws ++ with_suffix rel_path ".md") ".json")
      = none) :
    writesOf (save_summary env (docsPathOf ws) rel_path s).1
      = [ws ++ ["docs", "codebase"] ++ with_suffix rel_path ".md",
        with_suffix (ws ++ ["docs", "codebase"] ++ with_suffix rel_path ".md")
          ".json"]
    ∧ Event.mkdirP
        ((ws ++ ["docs", "codebase"] ++ with_suffix rel_path ".md").dropLast)
      ∈ (save_summary env (docsPathOf ws) rel_path s).1 := by
  unfold save_summary
  simp only [docsPathOf] at h1 h2 ⊢
  simp only [h1, h2]
  constructor
  · simp [writesOf]
  · simp

/-- Claim C3 witness: input src/foo/bar.ts under workspace root /w yields
/w/docs/codebase/src/foo/bar.md and /w/docs/codebase/src/foo/bar.json. -/
theorem summary_and_sidecar_paths_witness :
    (writesOf (save_summary envC3 (docsPathOf ["/", "w"])
        ["src", "foo", "bar.ts"] "S").1
      = [["/", "w"] ++ ["docs", "codebase"]
          ++ with_suffix ["src", "foo", "bar.ts"] ".md",
        with_suffix (["/", "w"] ++ ["docs", "codebase"]
          ++ with_suffix ["src", "foo", "bar.ts"] ".md") ".json"]
    ∧ Event.mkdirP ((["/", "w"] ++ ["docs", "codebase"]
        ++ with_suffix ["src", "foo", "bar.ts"] ".md").dropLast)
      ∈ (save_summary envC3 (docsPathOf ["/", "w"])
        ["src", "foo", "bar.ts"] "S").1)
    ∧ with_suffix ["src", "foo", "bar.ts"] ".md" = ["src", "foo", "bar.md"]
    ∧ with_suffix ["src", "foo", "bar.ts"] ".json"
      = ["src", "foo", "bar.json"] :=
  ⟨summary_and_sidecar_paths envC3 ["/", "w"] ["src", "foo", "bar.ts"] "S"
      rfl rfl,
    by decide, by decide⟩

/-- Claim C4: text longer than 8000 characters enters the prompt cut to its
first 8000 characters with the truncation marker after it; text of at most
8000 characters enters verbatim and the marker is appended nowhere, the
fixed template parts being free of it. -/
theorem prompt_truncation_behavior (rel_path file_ext content : String) :
    (content.length ≤ 8000 →
      build_analysis_prompt rel_path file_ext content
        = promptPartA ++ rel_path ++ promptPartB ++ pathStrStem rel_path
          ++ promptPartC ++ rel_path ++ promptPartD ++ rel_path ++ promptPartE
          ++ rel_path ++ promptPartF
          ++ (if file_ext = "" then "txt" else file_ext.drop 1) ++ "\n"
          ++ content ++ "  " ++ promptPartG)
    ∧ (8000 < content.length →
      build_analysis_prompt rel_path file_ext content
        = promptPartA ++ rel_path ++ promptPartB ++ pathStrStem rel_path
          ++ promptPartC ++ rel_path ++ promptPartD ++ rel_path ++ promptPartE
          ++ rel_path ++ promptPartF
          ++ (if file_ext = "" then "txt" else file_ext.drop 1) ++ "\n"
          ++ pySlice content 8000 ++ "  " ++ truncMarker ++ promptPartG)
    ∧ (pySlice content 8000).data = content.data.take 8000
    ∧ ¬ (truncMarker.data <:+: promptPartA.data)
    ∧ ¬ (truncMarker.data <:+: promptPartB.data)
    ∧ ¬ (truncMarker.data <:+: promptPartC.data)
    ∧ ¬ (truncMarker.data <:+: promptPartD.data)
    ∧ ¬ (truncMarker.data <:+: promptPartE.data)
    ∧ ¬ (truncMarker.data <:+: promptPartF.data)
    ∧ ¬ (truncMarker.data <:+: promptPartG.data) := by
  refine ⟨?_, ?_, rfl, ?_, ?_, ?_, ?_, ?_, ?_, ?_⟩
  · intro h
    unfold build_analysis_prompt
    rw [pySlice_of_le content 8000 h,
      if_neg (show ¬ (content.length > 8000) from by omega),
      str_append_empty]
  · intro h
    unfold build_analysis_prompt
    rw [if_pos h]
  · rw [← occursIn_spec]; decide
  · rw [← occursIn_spec]; decide
  · rw [← occursIn_spec]; decide
  · rw [← occursIn_spec]; decide
  · rw [← occursIn_spec]; decide
  · rw [← occursIn_spec]; decide
  · rw [← occursIn_spec]; decide

/-- Claim C4 witness: a three-character text appears verbatim, and a
8001-character text is cut with the marker appended. -/
theorem prompt_truncation_behavior_witness :
    build_analysis_prompt "a.py" ".py" "abc"
      = promptPartA ++ "a.py" ++ promptPartB ++ pathStrStem "a.py"
        ++ promptPartC ++ "a.py" ++ promptPartD ++ "a.py" ++ promptPartE
        ++ "a.py" ++ promptPartF
        ++ (if (".py" : String) = "" then "txt"
          else (".py" : String).drop 1) ++ "\n"
        ++ "abc" ++ "  " ++ promptPartG
    ∧ build_analysis_prompt "a.py" ".py" (String.mk (List.replicate 8001 'x'))
      = promptPartA ++ "a.py" ++ promptPartB ++ pathStrStem "a.py"
        ++ promptPartC ++ "a.py" ++ promptPartD ++ "a.py" ++ promptPartE
        ++ "a.py" ++ promptPartF
        ++ (if (".py" : String) = "" then "txt"
          else (".py" : String).drop 1) ++ "\n"
        ++ pySlice (String.mk (List.replicate 8001 'x')) 8000 ++ "  "
        ++ truncMarker ++ promptPartG :=
  ⟨(prompt_truncation_behavior "a.py" ".py" "abc").1 (by decide),
    (prompt_truncation_behavior "a.py" ".py"
        (String.mk (List.replicate 8001 'x'))).2.1
      (by rw [String.length_mk, List.length_replicate]; omega)⟩

/-- Claim C5: with a key present but a file list without non-blank lines, the
run prints the no-files error to the error stream and finishes with exit
status 1, and no API call appears in the trace. -/
theorem empty_file_list_exits_one (env : Env) (args : Args)
    (hkey : truthy (resolveApiKey args env) = true)
    (hempty : parsedFileList env.fileListText = []) :
    main_run env args = ([Event.readList, Event.err noFilesErrMsg], 1)
    ∧ apiPromptsOf (main_run env args).1 = [] := by
  have hmain : main_run env args
      = ([Event.readList, Event.err noFilesErrMsg], 1) := by
    unfold main_run
    rw [hkey]
    simp [hempty]
  exact ⟨hmain, by rw [hmain]; rfl⟩

/-- Claim C5 witness: a file list of blank lines only. -/
theorem empty_file_list_exits_one_witness :
    main_run envC5 argsC5 = ([Event.readList, Event.err noFilesErrMsg], 1)
    ∧ apiPromptsOf (main_run envC5 argsC5).1 = [] :=
  empty_file_list_exits_one envC5 argsC5 (by decide) (by decide)

/-- Claim C6: with no truthy key in the argument or the environment variable,
the run prints the key error to the error stream and finishes with exit
status 1, and the file list is never read. -/
theorem no_api_key_exits_without_reading_list (env : Env) (args : Args)
    (hkey : truthy (resolveApiKey args env) = false) :
    main_run env args = ([Event.err apiKeyErrMsg], 1)
    ∧ Event.readList ∉ (main_run env args).1 := by
  have hmain : main_run env args = ([Event.err apiKeyErrMsg], 1) := by
    unfold main_run
    rw [hkey]
    rfl
  refine ⟨hmain, ?_⟩
  rw [hmain]
  simp

/-- Claim C6 witness: an empty key argument and no environment key. -/
theorem no_api_key_exits_witness :
    main_run envC6 argsC6 = ([Event.err apiKeyErrMsg], 1)
    ∧ Event.readList ∉ (main_run envC6 argsC6).1 :=
  no_api_key_exits_without_reading_list envC6 argsC6 (by decide)

/-- Claim C7 counterexample: in a run where the summary write succeeds and
the metadata write then fails, the file counts as failed (its error is
caught and logged) yet its summary file write is present in the trace. -/
theorem summary_persists_when_metadata_write_fails :
    processErr envC7 ["/", "ws"] ["/", "ws", "docs", "codebase"] "/ws/a.py"
      = some "disk full"
    ∧ mdPathC7 ∈ writesOf (generate_summaries envC7 ["/", "ws"]
        ["/", "ws", "docs", "codebase"] ["/ws/a.py"]) := by
  constructor
  · decide
  · decide

/-- Claim C7 (amended): if processing of a file fails before its summary file
is written (path, read, API, or summary-write failure), no write for that
file appears in the trace; if only the metadata sidecar write fails, exactly
the summary file write appears, so the summary persists as a partial
artifact. -/
theorem failed_file_outputs (env : Env) (ws ds : FsPath) (idx total : Nat)
    (fp : String) (h : failStage env ws ds fp ≠ none) :
    (failStage env ws ds fp ≠ some FailStage.writeJson →
      writesOf (processOne env ws ds idx total fp) = [])
    ∧ (failStage env ws ds fp = some FailStage.writeJson →
      writesOf (processOne env ws ds idx total fp)
        = ((relative_to (parsePath fp) ws).toOption.map
          (fun r => ds ++ with_suffix r ".md")).toList) := by
  unfold processOne generate_single_summary save_summary
  unfold failStage at h ⊢
  cases hrel : relative_to (parsePath fp) ws with
  | error m =>
    simp only [hrel] at h ⊢
    exact ⟨fun _ => by simp [writesOf], fun hj => by simp at hj⟩
  | ok rel =>
    simp only [hrel] at h ⊢
    cases hread : env.readFile fp with
    | error m =>
      simp only [hread] at h ⊢
      exact ⟨fun _ => by simp [writesOf], fun hj => by simp at hj⟩
    | ok content =>
      simp only [hread] at h ⊢
      cases hapi : env.apiResponse (build_analysis_prompt (pathStr rel)
          (fileExtOf fp) content) with
      | error m =>
        simp only [hapi] at h ⊢
        exact ⟨fun _ => by simp [writesOf], fun hj => by simp at hj⟩
      | ok text =>
        simp only [hapi] at h ⊢
        cases hw1 : env.writeResult (ds ++ with_suffix rel ".md") with
        | some m =>
          simp only [hw1] at h ⊢
          exact ⟨fun _ => by simp [writesOf], fun hj => by simp at hj⟩
        | none =>
          simp only [hw1] at h ⊢
          cases hw2 : env.writeResult
              (with_suffix (ds ++ with_suffix rel ".md") ".json") with
          | some m =>
            simp only [hw2] at h ⊢
            constructor
            · intro hne
              exact absurd rfl hne
            · intro hj
              rfl
          | none =>
            simp only [hw2] at h
            exact absurd rfl h

/-- Claim C7 amended witness: a missing file leaves no writes at all. -/
theorem failed_file_outputs_witness :
    (failStage envC7b ["/", "ws"] ["/", "ws", "docs", "codebase"] "/ws/a.py"
        ≠ some FailStage.writeJson →
      writesOf (processOne envC7b ["/", "ws"] ["/", "ws", "docs", "codebase"]
        1 1 "/ws/a.py") = [])
    ∧ (failStage envC7b ["/", "ws"] ["/", "ws", "docs", "codebase"] "/ws/a.py"
        = some FailStage.writeJson →
      writesOf (processOne envC7b ["/", "ws"] ["/", "ws", "docs", "codebase"]
        1 1 "/ws/a.py")
        = ((relative_to (parsePath "/ws/a.py") ["/", "ws"]).toOption.map
          (fun r => ["/", "ws", "docs", "codebase"]
            ++ with_suffix r ".md")).toList) :=
  failed_file_outputs envC7b ["/", "ws"] ["/", "ws", "docs", "codebase"]
    1 1 "/ws/a.py" (by decide)

/-- Claim C8: whenever the run reaches the batch (key present, non-empty file
list), it finishes with exit status 0, whatever the per-file outcomes. -/
theorem normal_completion_exits_zero (env : Env) (args : Args)
    (hkey : truthy (resolveApiKey args env) = true)
    (hne : parsedFileList env.fileListText ≠ []) :
    (main_run env args).2 = 0 := by
  unfold main_run
  rw [hkey]
  simp only [Bool.not_true, Bool.false_eq_true, if_false]
  cases hemp : (parsedFileList env.fileListText).isEmpty with
  | true => exact absurd (List.isEmpty_iff.mp hemp) hne
  | false => simp [hemp]

/-- Claim C8 witness: a run whose two files are both missing still exits 0. -/
theorem normal_completion_exits_zero_witness :
    (main_run envC8 argsC8).2 = 0 :=
  normal_completion_exits_zero envC8 argsC8 (by decide) (by decide)

/-- Claim C9: a listed file outside the workspace root yields exactly the
error line (with the path and the relative-path exception message), no file
read and no API call for it, and the surrounding files are processed as
usual. -/
theorem out_of_workspace_file_skipped (env : Env) (ws ds : FsPath)
    (idx total : Nat) (l1 l2 : List String) (fp : String)
    (h : ws.isPrefixOf (parsePath fp) = false) :
    processOne env ws ds idx total fp
      = [Event.err (failMsg fp (relErrMsg (parsePath fp) ws))]
    ∧ readsOf (processOne env ws ds idx total fp) = []
    ∧ apiPromptsOf (processOne env ws ds idx total fp) = []
    ∧ generate_summaries env ws ds (l1 ++ fp :: l2)
      = Event.mkdirP ds
        :: (goFiles env ws ds (l1 ++ fp :: l2).length 1 l1
          ++ [Event.err (failMsg fp (relErrMsg (parsePath fp) ws))]
          ++ goFiles env ws ds (l1 ++ fp :: l2).length (l1.length + 2) l2) := by
  have hp : ∀ i t, processOne env ws ds i t fp
      = [Event.err (failMsg fp (relErrMsg (parsePath fp) ws))] := by
    intro i t
    unfold processOne
    simp [relative_to, h]
  refine ⟨hp idx total, by rw [hp]; rfl, by rw [hp]; rfl, ?_⟩
  unfold generate_summaries
  rw [goFiles_append]
  rw [show goFiles env ws ds (l1 ++ fp :: l2).length (1 + l1.length)
        (fp :: l2)
      = processOne env ws ds (1 + l1.length) (l1 ++ fp :: l2).length fp
        ++ goFiles env ws ds (l1 ++ fp :: l2).length (1 + l1.length + 1) l2
    from rfl]
  rw [hp (1 + l1.length) (l1 ++ fp :: l2).length]
  rw [show 1 + l1.length + 1 = l1.length + 2 from by omega,
    List.append_assoc]

/-- Claim C9 witness: a batch whose middle entry lies outside the root. -/
theorem out_of_workspace_file_skipped_witness :
    processOne envC9 ["/", "ws"] ["/", "ws", "docs", "codebase"] 2 3
        "/other/x.py"
      = [Event.err (failMsg "/other/x.py"
          (relErrMsg (parsePath "/other/x.py") ["/", "ws"]))]
    ∧ readsOf (processOne envC9 ["/", "ws"] ["/", "ws", "docs", "codebase"]
        2 3 "/other/x.py") = []
    ∧ apiPromptsOf (processOne envC9 ["/", "ws"]
        ["/", "ws", "docs", "codebase"] 2 3 "/other/x.py") = []
    ∧ generate_summaries envC9 ["/", "ws"] ["/", "ws", "docs", "codebase"]
        (["/ws/a.py"] ++ "/other/x.py" :: ["/ws/b.py"])
      = Event.mkdirP ["/", "ws", "docs", "codebase"]
        :: (goFiles envC9 ["/", "ws"] ["/", "ws", "docs", "codebase"]
            (["/ws/a.py"] ++ "/other/x.py" :: ["/ws/b.py"]).length 1
            ["/ws/a.py"]
          ++ [Event.err (failMsg "/other/x.py"
              (relErrMsg (parsePath "/other/x.py") ["/", "ws"]))]
          ++ goFiles envC9 ["/", "ws"] ["/", "ws", "docs", "codebase"]
            (["/ws/a.py"] ++ "/other/x.py" :: ["/ws/b.py"]).length
            ((["/ws/a.py"] : List String).length + 2) ["/ws/b.py"]) :=
  out_of_workspace_file_skipped envC9 ["/", "ws"]
    ["/", "ws", "docs", "codebase"] 2 3 ["/ws/a.py"] ["/ws/b.py"]
    "/other/x.py" (by decide)

/-- Claim C10: whenever the batch runs, the trace ends with the completion
line reporting the number of input files as generated summaries and the
location line, independently of any per-file failures. -/
theorem completion_message_reports_input_count (env : Env) (args : Args)
    (hkey : truthy (resolveApiKey args env) = true)
    (hne : parsedFileList env.fileListText ≠ []) :
    (main_run env args).1
      = (Event.readList
          :: generate_summaries env (parsePath args.workspace)
            (docsPathOf (parsePath args.workspace))
            (parsedFileList env.fileListText))
        ++ [Event.out (doneMsg (parsedFileList env.fileListText).length),
          Event.out (locationMsg (docsPathOf (parsePath args.workspace)))] := by
  unfold main_run
  rw [hkey]
  simp only [Bool.not_true, Bool.false_eq_true, if_false]
  cases hemp : (parsedFileList env.fileListText).isEmpty with
  | true => exact absurd (List.isEmpty_iff.mp hemp) hne
  | false => simp [hemp]

/-- Claim C10 witness: both files fail, yet the completion line announces two
generated summaries. -/
theorem completion_message_reports_input_count_witness :
    (main_run envC10 argsC10).1
      = (Event.readList
          :: generate_summaries envC10 (parsePath argsC10.workspace)
            (docsPathOf (parsePath argsC10.workspace))
            (parsedFileList envC10.fileListText))
        ++ [Event.out (doneMsg 2),
          Event.out (locationMsg (docsPathOf (parsePath argsC10.workspace)))] :=
  completion_message_reports_input_count envC10 argsC10 (by decide)
    (by decide)

end Summarizer
